import Mathlib

/-
Verification of the hyperparameter-search scheduler in src/main.py of the
GNN-RecSys repository: the search-space declaration (SearchableHyperparameters),
the derived-parameter expansion and cross-parameter assertions at the top of
the train function, the fitness wrapper handed to the optimizer, and the
arguments the main entry point passes to gp_minimize in fresh-start and resume
mode.

The optimizer itself (skopt.gp_minimize) is an external library whose code is
not part of this repository; where a claim depends on its trial accounting,
that accounting is modelled from the specification and the definition is
marked "Modelled from the spec".
-/

namespace GNNRecSys

/-- An exact decimal literal, as written in the source: the value is
mantissa / 10 ^ exp10.  The float literals of src/main.py are all exact
decimals, so this represents them without rounding (0.266 is ⟨266, 3⟩). -/
structure Dec where
  mantissa : Int
  exp10 : Nat
deriving DecidableEq, Repr

/-- The rational value denoted by a decimal literal. -/
def Dec.toRat (d : Dec) : Rat := (d.mantissa : Rat) / ((10 : Rat) ^ d.exp10)

/-- Order on decimal literals by cross multiplication of the integer parts. -/
def Dec.ble (a b : Dec) : Bool :=
  decide (a.mantissa * (10 : Int) ^ b.exp10 ≤ b.mantissa * (10 : Int) ^ a.exp10)

/-- Strict alphabetical (lexicographic) order on character lists, mirroring
the order in which the Python builtin dir() lists attribute names. -/
def charListLt : List Char → List Char → Bool
  | [], [] => false
  | [], _ :: _ => true
  | _ :: _, [] => false
  | a :: as, b :: bs => if a = b then charListLt as bs else decide (a < b)

/-- Strict alphabetical order on strings. -/
def stringAlphaLt (a b : String) : Bool := charListLt a.data b.data

/-- The Python str.endswith check: the second string is a suffix of the
first. -/
def strEndsWith (s sfx : String) : Bool := sfx.data.isSuffixOf s.data

/-- A value of one search dimension: the searched dimensions hold strings
(categorical names), decimal numbers (Python float literals), integers and
booleans. -/
inductive PValue where
  | str : String → PValue
  | dec : Dec → PValue
  | int : Int → PValue
  | bool : Bool → PValue
deriving DecidableEq, Repr

/-- A search dimension, mirroring skopt.space Real, Integer and Categorical as
instantiated in SearchableHyperparameters (src/main.py lines 485-504):
continuous and integer dimensions carry inclusive low/high bounds, continuous
ones also a sampling prior; categorical dimensions carry their ordered list of
allowed values.  Every dimension carries its name. -/
inductive Dimension where
  | realDim (low high : Dec) (sampling : String) (nm : String)
  | intDim (low high : Int) (nm : String)
  | catDim (cats : List PValue) (nm : String)
deriving DecidableEq, Repr

/-- The name attached to a dimension. -/
def Dimension.name : Dimension → String
  | .realDim _ _ _ nm => nm
  | .intDim _ _ nm => nm
  | .catDim _ nm => nm

/-- Membership of a concrete value in a dimension: within the inclusive bounds
for Real and Integer dimensions, listed among the categories for Categorical
dimensions. -/
def inDimension : PValue → Dimension → Bool
  | .dec x, .realDim lo hi _ _ => Dec.ble lo x && Dec.ble x hi
  | .int x, .intDim lo hi _ => decide (lo ≤ x) && decide (x ≤ hi)
  | v, .catDim cats _ => cats.contains v
  | _, _ => false

/-- The dimension list assembled by SearchableHyperparameters
(src/main.py lines 486-509).  The source builds it by introspecting the
instance attributes with dir(self), which yields the attribute names in
alphabetical order; at that point exactly the fourteen dimension attributes
exist, so the list is the fourteen declared dimensions in alphabetical
attribute order (which coincides with their declaration order). -/
def dimensions : List Dimension :=
  [ .catDim [.str "mean", .str "sum", .str "max"] "aggregator_hetero",
    .catDim [.str "mean", .str "mean_nn", .str "pool_nn"] "aggregator_type",
    .catDim [.dec ⟨2, 1⟩, .dec ⟨3, 1⟩, .dec ⟨4, 1⟩] "clicks_sample",
    .realDim ⟨15, 2⟩ ⟨35, 2⟩ "log-uniform" "delta",
    .realDim ⟨0, 0⟩ ⟨8, 1⟩ "uniform" "dropout",
    .catDim [.str "Very Small", .str "Small", .str "Medium", .str "Large",
             .str "Very Large"] "embed_dim",
    .catDim [.bool true, .bool false] "embedding_layer",
    .realDim ⟨1, 4⟩ ⟨1, 2⟩ "log-uniform" "lr",
    .intDim 3 5 "n_layers",
    .intDim 700 3000 "neg_sample_size",
    .catDim [.bool true, .bool false] "norm",
    .catDim [.str "No", .str "Small", .str "Medium", .str "Large"]
            "popularity_importance",
    .catDim [.dec ⟨4, 1⟩, .dec ⟨5, 1⟩, .dec ⟨6, 1⟩] "purchases_sample",
    .catDim [.bool true, .bool false] "use_recency" ]

/-- The default parameter vector self.default_parameters
(src/main.py lines 510-511), one value per dimension in the same order:
0.3 is ⟨3, 1⟩, 0.266 is ⟨266, 3⟩, 0.5 is ⟨5, 1⟩, 0.00565 is ⟨565, 5⟩. -/
def default_parameters : List PValue :=
  [ .str "sum", .str "mean_nn", .dec ⟨3, 1⟩, .dec ⟨266, 3⟩, .dec ⟨5, 1⟩,
    .str "Medium", .bool false, .dec ⟨565, 5⟩, .int 3, .int 2500, .bool true,
    .str "No", .dec ⟨5, 1⟩, .bool true ]

/-- A vector is a member of the declared search space when it has exactly one
entry per dimension and each entry lies in its dimension. -/
def vectorInSpace (v : List PValue) (ds : List Dimension) : Bool :=
  v.length == ds.length && (v.zip ds).all fun vd => inDimension vd.1 vd.2

/-- The names of consecutive dimensions are in strictly increasing
alphabetical order. -/
def namesSortedBool : List Dimension → Bool
  | [] => true
  | [_] => true
  | a :: b :: rest => stringAlphaLt a.name b.name && namesSortedBool (b :: rest)

/-- The fields of the external FixedParameters configuration object that the
train function of src/main.py reads in the parts under verification:
fixed_params.duplicates (lines 99-106) and fixed_params.neighbor_sampler
(line 191).  The object is built once per search invocation and is not
searched. -/
structure FixedParams where
  duplicates : String
  neighbor_sampler : String
deriving DecidableEq, Repr

/-- The raw searched parameter vector as received by train through **params:
one field per declared dimension, with the types the dimensions produce.
Numeric float-valued fields are represented as rationals. -/
structure RawParams where
  aggregator_hetero : String
  aggregator_type : String
  clicks_sample : Rat
  delta : Rat
  dropout : Rat
  embed_dim : String
  embedding_layer : Bool
  lr : Rat
  n_layers : Int
  neg_sample_size : Int
  norm : Bool
  popularity_importance : String
  purchases_sample : Rat
  use_recency : Bool
deriving DecidableEq, Repr

/-- The out_dim lookup table of train (src/main.py line 86). -/
def out_dim_table : String → Option Nat
  | "Very Small" => some 32
  | "Small" => some 96
  | "Medium" => some 128
  | "Large" => some 192
  | "Very Large" => some 256
  | _ => none

/-- The hidden_dim lookup table of train (src/main.py line 87). -/
def hidden_dim_table : String → Option Nat
  | "Very Small" => some 64
  | "Small" => some 192
  | "Medium" => some 256
  | "Large" => some 384
  | "Very Large" => some 512
  | _ => none

/-- The use_popularity lookup table of train (src/main.py line 92). -/
def use_popularity_table : String → Option Bool
  | "No" => some false
  | "Small" => some true
  | "Medium" => some true
  | "Large" => some true
  | _ => none

/-- The weight_popularity lookup table of train (src/main.py line 93). -/
def weight_popularity_table : String → Option Rat
  | "No" => some 0
  | "Small" => some 0.01
  | "Medium" => some 0.05
  | "Large" => some 0.1
  | _ => none

/-- The days_popularity lookup table of train (src/main.py line 94). -/
def days_popularity_table : String → Option Nat
  | "No" => some 0
  | "Small" => some 7
  | "Medium" => some 7
  | "Large" => some 7
  | _ => none

/-- The aggregator_type rewrite of train (src/main.py lines 99-100): when the
fixed duplicates mode is count_occurrence, the suffix _edge is appended to the
searched aggregator_type; otherwise it is left unchanged. -/
def expandAggregatorType (duplicates agg : String) : String :=
  if duplicates = "count_occurrence" then agg ++ "_edge" else agg

/-- The asserted cross-parameter invariant of train (src/main.py lines
103-106): in count_occurrence mode the expanded aggregator_type must end with
edge, otherwise it must not. -/
def aggregatorInvariant (duplicates agg : String) : Bool :=
  if duplicates = "count_occurrence" then strEndsWith agg "edge"
  else !(strEndsWith agg "edge")

/-- The derived parameters computed by train before any graph or model work
(src/main.py lines 84-100). -/
structure ExpandedParams where
  out_dim : Nat
  hidden_dim : Nat
  use_popularity : Bool
  weight_popularity : Rat
  days_popularity : Nat
  aggregator_type : String
deriving DecidableEq, Repr

/-- The derived-parameter expansion step of train (src/main.py lines 84-100):
each table lookup raises KeyError (modelled as none) when the raw categorical
value is not a key of the table; otherwise the six derived values are written
into the parameter dictionary.  This is everything train computes from the raw
vector before the assertions of lines 103-106. -/
def expandParams (fp : FixedParams) (p : RawParams) : Option ExpandedParams :=
  match out_dim_table p.embed_dim, hidden_dim_table p.embed_dim,
        use_popularity_table p.popularity_importance,
        weight_popularity_table p.popularity_importance,
        days_popularity_table p.popularity_importance with
  | some od, some hd, some up, some wp, some dp =>
      some { out_dim := od, hidden_dim := hd, use_popularity := up,
             weight_popularity := wp, days_popularity := dp,
             aggregator_type := expandAggregatorType fp.duplicates
                                  p.aggregator_type }
  | _, _, _, _, _ => none

/-- The prefix of train up to and including the assertions (src/main.py lines
84-106): expansion, then the asserted invariant.  A failed table lookup aborts
with KeyError; a failed assertion aborts with AssertionError; otherwise the
expanded parameters flow on to the rest of the trial. -/
def trainSetup (fp : FixedParams) (p : RawParams) : Except String ExpandedParams :=
  match expandParams fp p with
  | none => Except.error "KeyError"
  | some e =>
      if aggregatorInvariant fp.duplicates e.aggregator_type then Except.ok e
      else Except.error "AssertionError"

/-- A whole trial of train: the setup prefix, then the expensive work (graph
construction, training and evaluation, src/main.py lines 108-447) abstracted
as a collaborator function from the expanded parameters to the returned
recall.  When the setup aborts, the collaborator is never invoked. -/
def trainRun (fp : FixedParams) (p : RawParams)
    (collab : ExpandedParams → Rat) : Except String Rat :=
  Except.map collab (trainSetup fp p)

/-- The two reads of the n_layers parameter in the body of train, in program
order: generate_dataloaders receives the searched value (src/main.py line
170), and afterwards ConvModel receives 3 instead when the fixed
neighbor_sampler is the partial sampler (lines 191-195). -/
def trainLayerTrace (fp : FixedParams) (p : RawParams) : List (String × Int) :=
  [ ("generate_dataloaders", p.n_layers),
    ("ConvModel", if fp.neighbor_sampler = "partial" then 3 else p.n_layers) ]

/-- The fitness wrapper handed to skopt (src/main.py lines 517-526): it merges
the process-wide fixed context into the searched parameters, runs one full
training trial (abstracted here as a collaborator returning the recall), and
returns the negated recall, since skopt minimizes. -/
def fitness (trainCollab : RawParams → Rat) (p : RawParams) : Rat :=
  -(trainCollab p)

/-- A loaded skopt checkpoint as used by main (src/main.py lines 592-595): the
ordered list of evaluated parameter vectors and their objective values. -/
structure SkoptCheckpoint where
  x_iters : List (List PValue)
  func_vals : List Rat
deriving DecidableEq, Repr

/-- The arguments of a gp_minimize call that the claims depend on:
the trial budget n_calls, the warm-up count n_initial_points, the seed points
x0 and their known objective values y0 (none when the points must still be
evaluated), the acquisition function name and the random seed. -/
structure GpMinimizeArgs where
  n_calls : Nat
  n_initial_points : Int
  x0 : List (List PValue)
  y0 : Option (List Rat)
  acq : String
  random_state : Nat
deriving DecidableEq, Repr

/-- The gp_minimize call of the fresh-start branch (src/main.py lines
576-586): budget 200, the default parameter vector as the single seed point
with no known objective, acquisition EI, seed 46.  The source does not pass
n_initial_points, so the optimizer default of 10 random warm-up points
applies (modelled from the spec, which states that randomly sampled warm-up
trials follow the seeded first trial). -/
def freshGpArgs : GpMinimizeArgs :=
  { n_calls := 200, n_initial_points := 10, x0 := [default_parameters],
    y0 := none, acq := "EI", random_state := 46 }

/-- The gp_minimize call of the resume branch (src/main.py lines 597-607):
budget 200, the full loaded history as seed points with their recorded
objective values, and the negative warm-up count workaround
n_initial_points = -len(x0). -/
def resumeGpArgs (res : SkoptCheckpoint) : GpMinimizeArgs :=
  { n_calls := 200, n_initial_points := -(res.x_iters.length : Int),
    x0 := res.x_iters, y0 := some res.func_vals, acq := "EI",
    random_state := 46 }

/-- Modelled from the spec: the warm-up target of the optimizer inside
gp_minimize, whose code is not part of this repository.  Per the spec, the
negative warm-up count passed on resume encodes skipping random warm-up
entirely: the optimizer adds the number of provided seed points to the
requested count, so the target is n_initial_points + len(x0). -/
def gpWarmupTarget (a : GpMinimizeArgs) : Int :=
  a.n_initial_points + (a.x0.length : Int)

/-- Modelled from the spec: the number of randomly sampled warm-up proposals
gp_minimize makes after the seed points have been recorded.  The seed points
(evaluated first on a fresh start, or loaded with their objectives on resume)
count toward the warm-up target; random sampling continues only while the
target is not yet reached, after which every proposal is acquisition
guided. -/
def gpRandomWarmups (a : GpMinimizeArgs) : Int :=
  max 0 (gpWarmupTarget a - (a.x0.length : Int))

/-- Modelled from the spec: the number of new trials gp_minimize evaluates in
one invocation.  The budget n_calls is the maximum trial count of the search
lineage: seed points with already-known objectives (resume) count toward it,
so the invocation evaluates n_calls minus the loaded history; on a fresh start
the seed evaluations themselves consume part of the same budget. -/
def gpNewTrials (a : GpMinimizeArgs) : Nat :=
  match a.y0 with
  | some _ => a.n_calls - a.x0.length
  | none => a.n_calls

/-- Modelled from the spec: the first point gp_minimize evaluates.  When seed
points are provided without objective values, they are evaluated first, in
order, before any random sampling; when their objectives are provided, no
seed point is re-evaluated. -/
def gpFirstEvaluatedPoint (a : GpMinimizeArgs) : Option (List PValue) :=
  match a.y0 with
  | some _ => none
  | none => a.x0.head?

/-- Fixture: a fixed configuration with duplicates = count_occurrence. -/
def fpCount : FixedParams := { duplicates := "count_occurrence", neighbor_sampler := "full" }

/-- Fixture: a fixed configuration with duplicates = keep_all. -/
def fpKeep : FixedParams := { duplicates := "keep_all", neighbor_sampler := "full" }

/-- Fixture: a fixed configuration selecting the partial neighbor sampler. -/
def fpOverride : FixedParams := { duplicates := "keep_all", neighbor_sampler := "partial" }

/-- Fixture: a raw parameter vector matching the declared default vector. -/
def pMean : RawParams :=
  { aggregator_hetero := "sum", aggregator_type := "mean_nn",
    clicks_sample := 0.3, delta := 0.266, dropout := 0.5,
    embed_dim := "Medium", embedding_layer := false, lr := 0.00565,
    n_layers := 3, neg_sample_size := 2500, norm := true,
    popularity_importance := "No", purchases_sample := 0.5,
    use_recency := true }

/-- Fixture: a raw vector outside the declared categorical domain, whose
aggregator_type already carries the edge suffix. -/
def pEdge : RawParams := { pMean with aggregator_type := "mean_edge" }

/-- Fixture: the expanded parameters of pMean under fpKeep. -/
def eMean : ExpandedParams :=
  { out_dim := 128, hidden_dim := 256, use_popularity := false,
    weight_popularity := 0, days_popularity := 0, aggregator_type := "mean_nn" }

/-- Fixture: the expanded parameters of pEdge under fpKeep. -/
def eEdge : ExpandedParams :=
  { out_dim := 128, hidden_dim := 256, use_popularity := false,
    weight_popularity := 0, days_popularity := 0, aggregator_type := "mean_edge" }

end GNNRecSys

namespace GNNRecSys

/-- The boolean comparison of decimal literals agrees with the order of the
rational numbers they denote. -/
theorem Dec.ble_iff (a b : Dec) : Dec.ble a b = true ↔ a.toRat ≤ b.toRat := by
  unfold Dec.ble Dec.toRat
  rw [decide_eq_true_eq, div_le_div_iff₀ (by positivity) (by positivity)]
  constructor <;> intro h <;> exact_mod_cast h

/-- A successful expansion is exactly the five table lookups plus the
deterministic aggregator rewrite. -/
theorem expandParams_some_spec (fp : FixedParams) (p : RawParams)
    (e : ExpandedParams) (h : expandParams fp p = some e) :
    out_dim_table p.embed_dim = some e.out_dim
    ∧ hidden_dim_table p.embed_dim = some e.hidden_dim
    ∧ use_popularity_table p.popularity_importance = some e.use_popularity
    ∧ weight_popularity_table p.popularity_importance = some e.weight_popularity
    ∧ days_popularity_table p.popularity_importance = some e.days_popularity
    ∧ e.aggregator_type
        = expandAggregatorType fp.duplicates p.aggregator_type := by
  unfold expandParams at h
  split at h
  · injection h with h
    subst h
    simp_all
  · exact absurd h (by simp)

/-- When the expanded aggregator satisfies the asserted invariant, the setup
prefix of train cannot abort with the assertion error. -/
theorem trainSetup_ne_assert (fp : FixedParams) (p : RawParams)
    (hinv : aggregatorInvariant fp.duplicates
      (expandAggregatorType fp.duplicates p.aggregator_type) = true) :
    trainSetup fp p ≠ Except.error "AssertionError" := by
  unfold trainSetup
  cases hx : expandParams fp p with
  | none => simp
  | some e =>
      have hagg := (expandParams_some_spec fp p e hx).2.2.2.2.2
      simp [hagg, hinv]

/-- Claim C1: for every raw parameter vector, the objective value the fitness
wrapper hands to the optimizer equals the negation of the recall returned by
the trial run: if the training run returns recall r, fitness returns -r. -/
theorem c1_fitness_negates_recall (trainCollab : RawParams → Rat)
    (p : RawParams) (r : Rat) (h : trainCollab p = r) :
    fitness trainCollab p = -r := by
  unfold fitness
  rw [h]

/-- Witness for C1 at a training collaborator returning recall 0.20: the
recorded objective is -0.20. -/
theorem c1_fitness_negates_recall_witness :
    (fun _ : RawParams => (0.2 : Rat)) pMean = 0.2
    ∧ fitness (fun _ : RawParams => (0.2 : Rat)) pMean = -0.2 :=
  ⟨rfl, c1_fitness_negates_recall (fun _ => (0.2 : Rat)) pMean 0.2 rfl⟩

/-- Claim C2: for every raw vector whose aggregator_type is drawn from the
declared categorical domain, after expansion the cross-parameter invariant
holds: in count_occurrence mode the expanded aggregator_type ends with the
edge suffix, otherwise it does not, and the assertion-failure branches of the
trial executor are unreachable. -/
theorem c2_expanded_aggregator_invariant (fp : FixedParams) (p : RawParams)
    (h : p.aggregator_type ∈ ["mean", "mean_nn", "pool_nn"]) :
    aggregatorInvariant fp.duplicates
      (expandAggregatorType fp.duplicates p.aggregator_type) = true
    ∧ (fp.duplicates = "count_occurrence" →
        strEndsWith (expandAggregatorType fp.duplicates p.aggregator_type)
          "edge" = true)
    ∧ (fp.duplicates ≠ "count_occurrence" →
        strEndsWith (expandAggregatorType fp.duplicates p.aggregator_type)
          "edge" = false)
    ∧ trainSetup fp p ≠ Except.error "AssertionError" := by
  simp only [List.mem_cons, List.not_mem_nil, or_false] at h
  by_cases hd : fp.duplicates = "count_occurrence"
  · have hexp : expandAggregatorType fp.duplicates p.aggregator_type
        = p.aggregator_type ++ "_edge" := by
      unfold expandAggregatorType
      rw [if_pos hd]
    have hend : strEndsWith (p.aggregator_type ++ "_edge") "edge" = true := by
      rcases h with h | h | h <;> rw [h] <;> decide
    have hinv : aggregatorInvariant fp.duplicates
        (expandAggregatorType fp.duplicates p.aggregator_type) = true := by
      unfold aggregatorInvariant
      rw [if_pos hd, hexp, hend]
    exact ⟨hinv, fun _ => by rw [hexp, hend],
      fun hcon => absurd hd hcon, trainSetup_ne_assert fp p hinv⟩
  · have hexp : expandAggregatorType fp.duplicates p.aggregator_type
        = p.aggregator_type := by
      unfold expandAggregatorType
      rw [if_neg hd]
    have hend : strEndsWith p.aggregator_type "edge" = false := by
      rcases h with h | h | h <;> rw [h] <;> decide
    have hinv : aggregatorInvariant fp.duplicates
        (expandAggregatorType fp.duplicates p.aggregator_type) = true := by
      unfold aggregatorInvariant
      rw [if_neg hd, hexp, hend]
      rfl
    exact ⟨hinv, fun hcon => absurd hcon hd,
      fun _ => by rw [hexp, hend], trainSetup_ne_assert fp p hinv⟩

/-- Witness for C2 at the count_occurrence configuration and the raw
aggregator value mean_nn: the expanded value ends with the edge suffix and
the assertion cannot fire. -/
theorem c2_expanded_aggregator_invariant_witness :
    pMean.aggregator_type ∈ ["mean", "mean_nn", "pool_nn"]
    ∧ aggregatorInvariant fpCount.duplicates
        (expandAggregatorType fpCount.duplicates pMean.aggregator_type) = true
    ∧ strEndsWith (expandAggregatorType fpCount.duplicates
        pMean.aggregator_type) "edge" = true
    ∧ trainSetup fpCount pMean ≠ Except.error "AssertionError" :=
  ⟨by decide,
    (c2_expanded_aggregator_invariant fpCount pMean (by decide)).1,
    (c2_expanded_aggregator_invariant fpCount pMean (by decide)).2.1 rfl,
    (c2_expanded_aggregator_invariant fpCount pMean (by decide)).2.2.2⟩

/-- Claim C3: for every candidate whose expanded aggregation choice violates
the asserted invariant, evaluation aborts with the assertion error for every
possible training collaborator, so no expensive work runs; and the executor
never repairs the aggregation value: a successful setup always carries exactly
the deterministic expansion of the raw value, satisfying the invariant. -/
theorem c3_invalid_aggregator_aborts (fp : FixedParams) (p : RawParams) :
    ((∃ e, expandParams fp p = some e) →
      aggregatorInvariant fp.duplicates
        (expandAggregatorType fp.duplicates p.aggregator_type) = false →
      ∀ collab : ExpandedParams → Rat,
        trainRun fp p collab = Except.error "AssertionError")
    ∧ (∀ e, trainSetup fp p = Except.ok e →
        e.aggregator_type = expandAggregatorType fp.duplicates p.aggregator_type
        ∧ aggregatorInvariant fp.duplicates e.aggregator_type = true) := by
  constructor
  · rintro ⟨e, he⟩ hinv collab
    have hagg := (expandParams_some_spec fp p e he).2.2.2.2.2
    unfold trainRun trainSetup
    rw [he]
    simp [hagg, hinv, Except.map]
  · intro e he
    unfold trainSetup at he
    cases hx : expandParams fp p with
    | none => rw [hx] at he; exact absurd he (by simp)
    | some e0 =>
        rw [hx] at he
        have hagg := (expandParams_some_spec fp p e0 hx).2.2.2.2.2
        by_cases hc : aggregatorInvariant fp.duplicates e0.aggregator_type = true
        · have hok : Except.ok (ε := String) e0 = Except.ok e := by
            rw [← he]
            simp [hc]
          injection hok with hok
          subst hok
          exact ⟨hagg, hc⟩
        · have hko : Except.error (α := ExpandedParams) "AssertionError"
              = Except.ok e := by
            rw [← he]
            simp [hc]
          exact absurd hko (by simp)

/-- Witness for C3 at the keep_all configuration and a candidate whose raw
aggregator value already carries the edge suffix: the trial aborts with the
assertion error under an arbitrary collaborator. -/
theorem c3_invalid_aggregator_aborts_witness :
    expandParams fpKeep pEdge = some eEdge
    ∧ aggregatorInvariant fpKeep.duplicates
        (expandAggregatorType fpKeep.duplicates pEdge.aggregator_type) = false
    ∧ trainRun fpKeep pEdge (fun _ => 0) = Except.error "AssertionError" :=
  ⟨rfl, rfl,
    (c3_invalid_aggregator_aborts fpKeep pEdge).1 ⟨eEdge, rfl⟩ rfl (fun _ => 0)⟩

/-- Claim C4: in resume mode the optimization loop is handed the full loaded
history with its objective values and the warm-up count -K, so (per the
optimizer accounting modelled from the spec) zero additional random warm-up
trials are performed and every subsequent proposal is acquisition guided. -/
theorem c4_resume_zero_random_warmup (res : SkoptCheckpoint) :
    (resumeGpArgs res).x0 = res.x_iters
    ∧ (resumeGpArgs res).y0 = some res.func_vals
    ∧ (resumeGpArgs res).n_initial_points = -(res.x_iters.length : Int)
    ∧ gpRandomWarmups (resumeGpArgs res) = 0 := by
  refine ⟨rfl, rfl, rfl, ?_⟩
  unfold gpRandomWarmups gpWarmupTarget resumeGpArgs
  simp only
  rw [max_eq_left (by omega)]

/-- Claim C5: the configured maximum trial count (200) bounds the whole search
lineage: resuming after K evaluated trials executes 200 - K new trials, per
the budget accounting modelled from the spec. -/
theorem c5_resume_budget_continues_count (res : SkoptCheckpoint) :
    gpNewTrials (resumeGpArgs res) = 200 - res.x_iters.length := by
  unfold gpNewTrials resumeGpArgs
  simp only

/-- Claim C6: on a fresh start the first evaluated trial is exactly the
declared default parameter vector, which is a point of the declared search
space with one value per dimension, and a positive number of randomly sampled
warm-up trials follows it. -/
theorem c6_fresh_first_trial_default :
    gpFirstEvaluatedPoint freshGpArgs = some default_parameters
    ∧ freshGpArgs.x0 = [default_parameters]
    ∧ freshGpArgs.y0 = none
    ∧ vectorInSpace default_parameters dimensions = true
    ∧ 0 < gpRandomWarmups freshGpArgs :=
  ⟨rfl, rfl, rfl, by decide, by decide⟩

/-- Claim C7: whenever the popularity importance bucket is the disabled bucket
No, the expansion tables yield use_popularity = false, weight_popularity = 0
and days_popularity = 0, and any successful expansion of such a vector carries
those three values, regardless of all other raw parameters. -/
theorem c7_popularity_no_expands_zero (fp : FixedParams) (p : RawParams)
    (h : p.popularity_importance = "No") :
    use_popularity_table p.popularity_importance = some false
    ∧ weight_popularity_table p.popularity_importance = some 0
    ∧ days_popularity_table p.popularity_importance = some 0
    ∧ ∀ e, expandParams fp p = some e →
        e.use_popularity = false
        ∧ e.weight_popularity = 0
        ∧ e.days_popularity = 0 := by
  rw [h]
  refine ⟨rfl, rfl, rfl, ?_⟩
  intro e he
  have hs := expandParams_some_spec fp p e he
  rw [h] at hs
  obtain ⟨-, -, h3, h4, h5, -⟩ := hs
  have e3 : use_popularity_table "No" = some false := rfl
  have e4 : weight_popularity_table "No" = some 0 := rfl
  have e5 : days_popularity_table "No" = some 0 := rfl
  rw [e3] at h3
  rw [e4] at h4
  rw [e5] at h5
  injection h3 with h3
  injection h4 with h4
  injection h5 with h5
  exact ⟨h3.symm, h4.symm, h5.symm⟩

/-- Witness for C7 at a concrete raw vector with the disabled popularity
bucket: the expanded parameters carry the zero weight and zero window. -/
theorem c7_popularity_no_expands_zero_witness :
    pMean.popularity_importance = "No"
    ∧ expandParams fpKeep pMean = some eMean
    ∧ eMean.use_popularity = false
    ∧ eMean.weight_popularity = 0
    ∧ eMean.days_popularity = 0 :=
  ⟨rfl, rfl,
    (c7_popularity_no_expands_zero fpKeep pMean rfl).2.2.2 eMean rfl⟩

/-- Claim C8: derived-parameter expansion is a pure deterministic function of
the raw parameter vector and the fixed parameters: equal inputs produce
identical expanded parameters. -/
theorem c8_expansion_deterministic (fp1 fp2 : FixedParams)
    (p1 p2 : RawParams) (hfp : fp1 = fp2) (hp : p1 = p2) :
    expandParams fp1 p1 = expandParams fp2 p2 := by
  rw [hfp, hp]

/-- Witness for C8 at a concrete input evaluated twice. -/
theorem c8_expansion_deterministic_witness :
    fpKeep = fpKeep ∧ pMean = pMean
    ∧ expandParams fpKeep pMean = expandParams fpKeep pMean :=
  ⟨rfl, rfl, c8_expansion_deterministic fpKeep fpKeep pMean pMean rfl rfl⟩

/-- Claim C9: the declared default parameter vector is a member of the
declared search space: one entry per dimension, each within its bounds or
categorical membership, and the assembled dimension list is in alphabetical
attribute-name order. -/
theorem c9_default_vector_in_space :
    default_parameters.length = dimensions.length
    ∧ vectorInSpace default_parameters dimensions = true
    ∧ namesSortedBool dimensions = true := by
  refine ⟨rfl, by decide, by decide⟩

/-- Claim C10: the data loaders are built with the searched n_layers value,
and afterwards the model is built with n_layers = 3 exactly when the fixed
neighbor_sampler selects the partial sampler; for every other sampler the
model uses the searched value unchanged. -/
theorem c10_neighbor_sampler_layer_override (fp : FixedParams) (p : RawParams) :
    (trainLayerTrace fp p).head? = some ("generate_dataloaders", p.n_layers)
    ∧ (fp.neighbor_sampler = "partial" →
        trainLayerTrace fp p
          = [("generate_dataloaders", p.n_layers), ("ConvModel", 3)])
    ∧ (fp.neighbor_sampler ≠ "partial" →
        trainLayerTrace fp p
          = [("generate_dataloaders", p.n_layers),
             ("ConvModel", p.n_layers)]) := by
  refine ⟨rfl, ?_, ?_⟩ <;> intro h <;> simp [trainLayerTrace, h]

/-- Witness for C10 at the partial-sampler configuration: the loaders see the
searched value 3 from the fixture and the model is built with 3. -/
theorem c10_neighbor_sampler_layer_override_witness :
    fpOverride.neighbor_sampler = "partial"
    ∧ trainLayerTrace fpOverride pMean
        = [("generate_dataloaders", pMean.n_layers), ("ConvModel", 3)] :=
  ⟨rfl, (c10_neighbor_sampler_layer_override fpOverride pMean).2.1 rfl⟩

end GNNRecSys
